import Mathlib

/-!
Verification development for the WFSS simulator orchestrator
(`mirage/wfss_simulator.py`).  The Python code is shallowly embedded:
2D detector images become total functions `ℕ → ℕ → ℚ` wrapped with their
shape, fallible operations return `Except String`, and the stateful
dispersing loop of `WFSSSim.create` becomes a fold over an explicit
state record.
-/

namespace Mirage

/-- Python `str.lower()`: characterwise lowering (the strings compared in
this module are plain ASCII).  Written via `String.mk`/`List.map` so that
it evaluates by kernel reduction. -/
def pyLower (s : String) : String := String.mk (s.data.map Char.toLower)

/-- A 2D array (numpy `ndarray` of shape `(rows, cols)`); pixel values are
rationals standing in for floats.  `px` is a total function; only indices
below the shape are meaningful. -/
structure Arr2 where
  rows : ℕ
  cols : ℕ
  px : ℕ → ℕ → ℚ

/-- Embedding of `WFSSSim.crop_to_subarray` (wfss_simulator.py lines
534-561).  `bounds = [xstart, ystart, xend, yend]`; the code checks
`bounds[0:3:2]` (x coordinates) against `xl = data.shape[1]` and
`bounds[1:4:2]` (y coordinates) against `yl = data.shape[0]`, and when all
are valid returns `data[ystart:yend+1, xstart:xend+1]` (Python slice
semantics: the slice length is the clamped difference, never negative). -/
def crop_to_subarray (data : Arr2) (xstart ystart xend yend : ℤ) : Except String Arr2 :=
  if 0 ≤ xstart ∧ xstart < (data.cols : ℤ) ∧ 0 ≤ xend ∧ xend < (data.cols : ℤ) ∧
     0 ≤ ystart ∧ ystart < (data.rows : ℤ) ∧ 0 ≤ yend ∧ yend < (data.rows : ℤ) then
    Except.ok { rows := (yend + 1 - ystart).toNat
              , cols := (xend + 1 - xstart).toNat
              , px := fun i j => data.px (i + ystart.toNat) (j + xstart.toNat) }
  else
    Except.error "WARNING: subarray bounds are outside the dimensions of the input array."

/-- Embedding of the reference-pixel zeroing of `WFSSSim.create`
(wfss_simulator.py lines 302-307): `disp_seed[0:4, :] = 0`,
`disp_seed[2044:, :] = 0`, `disp_seed[:, 0:4] = 0`, `disp_seed[:, 2044:] = 0`.
The row/column indices are fixed literals, not derived from the shape. -/
def zeroRefPix (data : Arr2) : Arr2 :=
  { rows := data.rows
  , cols := data.cols
  , px := fun i j => if i < 4 ∨ 2044 ≤ i ∨ j < 4 ∨ 2044 ≤ j then 0 else data.px i j }

/-- Embedding of `disp_seed /= gain` (wfss_simulator.py line 329). -/
def normalizeByGain (gain : ℚ) (data : Arr2) : Arr2 :=
  { data with px := fun i j => data.px i j / gain }

/-- Seed-image metadata (`cat.seedinfo`); only the units entry matters here. -/
structure SeedInfo where
  units : String

/-- Embedding of the unit-normalization stage of `WFSSSim.create`
(wfss_simulator.py lines 322-333): divide the seed by the gain and update
the metadata units to `ADU/sec`. -/
def normalizeStage (gain : ℚ) (data : Arr2) (info : SeedInfo) : Arr2 × SeedInfo :=
  (normalizeByGain gain data, { info with units := "ADU/sec" })

/-- Embedding of the post-loop stages of `WFSSSim.create` (lines 302-313):
first reference-pixel zeroing, unconditionally, then subarray cropping when
the aperture is not a full-frame aperture. -/
def postLoopSeed (fullframe : Bool) (xstart ystart xend yend : ℤ) (disp : Arr2) :
    Except String Arr2 :=
  let z := zeroRefPix disp
  if fullframe then Except.ok z else crop_to_subarray z xstart ystart xend yend

/-- The three source classes, in the fixed iteration order of the dispersing
loop of `WFSSSim.create` (wfss_simulator.py line 254:
`for seed_files in [ptsrc_seeds, galaxy_seeds, extended_seeds]`). -/
inductive SourceClass
  | ptsrc
  | galaxy
  | extended
deriving DecidableEq

/-- The fixed iteration order of the dispersing loop. -/
def classOrder : List SourceClass := [SourceClass.ptsrc, SourceClass.galaxy, SourceClass.extended]

/-- The two supported instruments. -/
inductive Instrument
  | nircam
  | niriss
deriving DecidableEq

/-- A background-image FITS file as written by `WFSSSim.create` (lines
292-297): one image extension with EXTNAME and UNITS header tags. -/
structure BkgdFile where
  extname : String
  units : String
  img : ℕ → ℕ → ℚ

/-- In `create`, `background_image` is the NIRCam dispersed 1D-spectrum
background (line 265) or the NIRISS rescaled reference image (line 286),
selected by instrument. -/
def chosenBackground (inst : Instrument) (specBack imgBack : ℕ → ℕ → ℚ) : ℕ → ℕ → ℚ :=
  match inst with
  | Instrument.nircam => specBack
  | Instrument.niriss => imgBack

/-- The gain lookup of `WFSSSim.create` (lines 324-327):
`MEAN_GAIN_VALUES[niriss]` for NIRISS, and
`MEAN_GAIN_VALUES[nircam][lw + module.lower()]` for NIRCam.  The numeric
table lives in `mirage/utils/constants.py`, which is not among the sources
here, so the table entries are parameters. -/
def selectMeanGain (inst : Instrument) (modName : String) (nirissGain : ℚ)
    (nircamLWGain : String → ℚ) : ℚ :=
  match inst with
  | Instrument.niriss => nirissGain
  | Instrument.nircam => nircamLWGain ("lw" ++ pyLower modName)

/-- State threaded through the dispersing loop of `WFSSSim.create`
(lines 252-300): the running composite `disp_seed`, the `background_done`
flag, the finalize calls made so far (class, whether a background argument
was passed), and the background files written so far. -/
structure LoopState where
  disp : ℕ → ℕ → ℚ
  backgroundDone : Bool
  finalizeCalls : List (SourceClass × Bool)
  filesWritten : List BkgdFile

/-- Initial loop state: `disp_seed = np.zeros(...)`, `background_done = False`
(lines 252-253). -/
def initLoopState : LoopState :=
  { disp := fun _ _ => 0, backgroundDone := false, finalizeCalls := [], filesWritten := [] }

/-- One iteration of the dispersing loop (lines 254-300).  `populated c`
embeds `seed_files[0] is not None`.  `classDisp c` is the dispersed image of
class `c` without background; `Grism_seed.finalize` is an external
collaborator (package NIRCAM_Gsim, not part of this repository) whose
contract (spec 4.2) is: superimpose the background onto the dispersed class
image when a background argument is given, else return the class image
alone.  When the background has not yet been injected, the background image
is computed (per instrument), passed to `finalize(Back=...)`, and written to
a FITS file with EXTNAME `BACKGRND` and UNITS `e/s` (lines 263-297); later
populated classes call `finalize()` with no background (line 299).  Finally
`disp_seed += dispersed_objtype_seed.final` (line 300). -/
def stepClass (inst : Instrument) (populated : SourceClass → Bool)
    (classDisp : SourceClass → ℕ → ℕ → ℚ) (specBack imgBack : ℕ → ℕ → ℚ)
    (st : LoopState) (c : SourceClass) : LoopState :=
  if populated c then
    if st.backgroundDone = false then
      let background_image := chosenBackground inst specBack imgBack
      { disp := fun i j => st.disp i j + (classDisp c i j + background_image i j)
      , backgroundDone := true
      , finalizeCalls := st.finalizeCalls ++ [(c, true)]
      , filesWritten := st.filesWritten ++ [⟨"BACKGRND", "e/s", background_image⟩] }
    else
      { disp := fun i j => st.disp i j + classDisp c i j
      , backgroundDone := st.backgroundDone
      , finalizeCalls := st.finalizeCalls ++ [(c, false)]
      , filesWritten := st.filesWritten }
  else st

/-- The full dispersing loop of `WFSSSim.create` (lines 252-300). -/
def runDisperseLoop (inst : Instrument) (populated : SourceClass → Bool)
    (classDisp : SourceClass → ℕ → ℕ → ℚ) (specBack imgBack : ℕ → ℕ → ℚ) : LoopState :=
  classOrder.foldl (stepClass inst populated classDisp specBack imgBack) initLoopState

/-- A background-rate entry from the yaml file: a string, a real number, or
anything else (`simSignals.bkgdrate` is an arbitrary yaml value). -/
inductive BkgdRate
  | str (s : String)
  | real (q : ℚ)
  | other
deriving DecidableEq

/-- Embedding of `bkgdrate.lower() in [low, medium, high]` (lines 196, 212). -/
def isTierName (s : String) : Bool :=
  pyLower s == "low" || pyLower s == "medium" || pyLower s == "high"

/-- Result of NIRCam background resolution: a 1D background spectrum from
the observation date, or from a named tier. -/
inductive NircamBackground
  | dateObsSpectrum
  | tierSpectrum (level : String)
deriving DecidableEq

/-- Embedding of the NIRCam background-resolution branch of `WFSSSim.create`
(lines 187-204).  If `use_dateobs_for_background` is set, a day-of-year
spectrum is generated; otherwise a string tier gives a low/med/high
spectrum, an unrecognized string raises ValueError, and any non-string
value raises ValueError.  (The quoted tier names of the original messages
are elided here.) -/
def nircamBackgroundResolve (useDateobs : Bool) (rate : BkgdRate) :
    Except String NircamBackground :=
  if useDateobs then Except.ok NircamBackground.dateObsSpectrum
  else
    match rate with
    | BkgdRate.str s =>
      if isTierName s then Except.ok (NircamBackground.tierSpectrum s)
      else Except.error "ERROR: Unrecognized background rate. Must be one of low, medium, high"
    | _ =>
      Except.error "ERROR: WFSS background rates must be one of low, medium, high, or use_dateobs_for_background must be True"

/-- The NIRISS numeric-rate scaling factor (line 245):
`bkgdrate * MEAN_GAIN_VALUES[niriss] * NIRISS_GRISM_THROUGHPUT_FACTOR`. -/
def nirissNumericScaling (rate gain throughput : ℚ) : ℚ := rate * gain * throughput

/-- Embedding of the NIRISS background-resolution branch of `WFSSSim.create`
(lines 211-245), producing the scaling factor for the reference background
image.  `calcBg` stands for the result of the external
`backgrounds.calculate_background` call; for a tier string the factor is
`calcBg * NIRISS_GRISM_THROUGHPUT_FACTOR * MEAN_GAIN_VALUES[niriss]`
(lines 223-236), for a real number it is
`bkgdrate * gain * throughput` (line 245).  The branch has no else case
for a value that is neither a string nor a real number: no exception is
raised and no scaling factor is assigned, modelled as `Except.ok none`. -/
def nirissBackgroundResolve (rate : BkgdRate) (calcBg gain throughput : ℚ) :
    Except String (Option ℚ) :=
  match rate with
  | BkgdRate.str s =>
    if isTierName s then Except.ok (some (calcBg * throughput * gain))
    else Except.error "ERROR: Unrecognized background rate. String value must be one of low, medium, high"
  | BkgdRate.real q => Except.ok (some (nirissNumericScaling q gain throughput))
  | BkgdRate.other => Except.ok none

/-- Mean of a list of rationals (`np.mean`, with the empty list mapped
to 0). -/
def lmean (l : List ℚ) : ℚ := l.sum / l.length

/-- One pass of `scipy.stats.sigmaclip` with `low = high = 3` (the call at
line 284): keep the elements `x` inclusively within the critical bounds,
`c >= critlower & c <= critupper` with `critlower = mean - 3*std` and
`critupper = mean + 3*std` (`std` the population standard deviation), i.e.
only elements strictly beyond 3 sigma are removed — in particular a
constant list survives unchanged.  Since both bounds are symmetric this is
exactly `(x - mean)^2 <= 9 * var`, which avoids square roots. -/
def clipPass (l : List ℚ) : List ℚ :=
  let m := lmean l
  let v := lmean (l.map (fun x => (x - m) ^ 2))
  l.filter (fun x => decide ((x - m) ^ 2 ≤ 9 * v))

/-- The iterative sigma-clipping loop of `scipy.stats.sigmaclip`: repeat
`clipPass` until the size no longer shrinks.  Each continuing iteration
strictly decreases the length, so `l.length` steps of fuel always reach the
fixpoint (see `sigmaclip_fixpoint`). -/
def sigmaclipAux : ℕ → List ℚ → List ℚ
  | 0, l => l
  | n + 1, l =>
    let c := clipPass l
    if c.length = l.length then c else sigmaclipAux n c

/-- Embedding of `scipy.stats.sigmaclip(image, low=3, high=3)` (line 284), returning the
surviving elements. -/
def sigmaclip (l : List ℚ) : List ℚ := sigmaclipAux l.length l

/-- Embedding of the NIRISS background-image rescaling (lines 284-286):
`background_image = background_image / mean(sigmaclip(background_image)) * scaling_factor`,
with the image flattened to a list of pixels. -/
def scaleBackgroundImage (img : List ℚ) (s : ℚ) : List ℚ :=
  img.map (fun x => x / lmean (sigmaclip img) * s)

/-- The fields of one yaml parameter document that `find_param_info` acts
on: `Inst.mode`, `Output.grism_source_image`, and the basename of the file. -/
structure ParamDoc where
  mode : String
  grism_source_image : Bool
  basename : String
deriving DecidableEq

/-- Embedding of `params[Inst][mode].lower() == wfss` (line 440). -/
def isWfssDoc (d : ParamDoc) : Bool := pyLower d.mode == "wfss"

/-- Embedding of `params[Inst][mode].lower() in [imaging, pom]` (line 470). -/
def isImgPomDoc (d : ParamDoc) : Bool :=
  pyLower d.mode == "imaging" || pyLower d.mode == "pom"

/-- The rewrite of an imaging/pom document (lines 474-475): mode forced to
wfss and `grism_source_image` set to True. -/
def rewriteToWfss (d : ParamDoc) : ParamDoc :=
  { d with mode := "wfss", grism_source_image := true }

/-- The name of the rewritten copy (line 477):
`tmp_update_to_wfss_mode_` + original basename, in the same directory. -/
def tmpFileName (d : ParamDoc) : String := "tmp_update_to_wfss_mode_" ++ d.basename

/-- State built up by `find_param_info` (lines 417-485): the list of yaml
files to disperse (file name paired with its contents), the new files
persisted to disk, and the count of wfss-mode files seen. -/
structure FPIState where
  yamls_to_disperse : List (String × ParamDoc)
  written : List (String × ParamDoc)
  wfss_files_found : ℕ
deriving DecidableEq

/-- Initial `find_param_info` state. -/
def fpiInit : FPIState := { yamls_to_disperse := [], written := [], wfss_files_found := 0 }

/-- The loop of `find_param_info` (lines 423-485).  A wfss document bumps
`wfss_files_found` and raises as soon as the count reaches 2 (lines
445-447); otherwise it is inserted at position 0 of the list (line 468).
An imaging/pom document is rewritten, persisted under a new name, and
appended (lines 470-480).  Documents of any other mode are skipped.  After
the loop, zero wfss documents raise (lines 482-484). -/
def find_param_info_aux : List ParamDoc → FPIState → Except String FPIState
  | [], st =>
    if st.wfss_files_found = 0 then
      Except.error "WARNING: No WFSS mode parameter files found. One of the parameter files must be wfss mode in order to define grism and crossing filter."
    else Except.ok st
  | d :: rest, st =>
    if isWfssDoc d then
      if st.wfss_files_found + 1 = 2 then
        Except.error "WARNING: only one of the parameter files can be WFSS mode."
      else
        find_param_info_aux rest
          { st with yamls_to_disperse := (d.basename, d) :: st.yamls_to_disperse
                  , wfss_files_found := st.wfss_files_found + 1 }
    else if isImgPomDoc d then
      find_param_info_aux rest
        { st with yamls_to_disperse := st.yamls_to_disperse ++ [(tmpFileName d, rewriteToWfss d)]
                , written := st.written ++ [(tmpFileName d, rewriteToWfss d)] }
    else
      find_param_info_aux rest st

/-- Embedding of `WFSSSim.find_param_info` (lines 417-485). -/
def find_param_info (docs : List ParamDoc) : Except String FPIState :=
  find_param_info_aux docs fpiInit

/-- The seed-generation loop of `WFSSSim.create` (lines 148-169): when
`create_continuum_seds` is set the loop breaks after the first parameter
file, so only the first file of the list is processed. -/
def seedGenFiles (create_continuum_seds : Bool) (files : List (String × ParamDoc)) :
    List (String × ParamDoc) :=
  if create_continuum_seds then files.take 1 else files

/-- Embedding of the `WFSSSim.__init__` logic that decides
`create_continuum_seds` (lines 94-138): `param_checks` (line 370) rejects
an SED file together with more than one parameter file; then
`find_param_info` validates and rewrites the documents; finally
`create_continuum_seds` is forced to True when the resulting list has
exactly one file, or when an SED file or SED dict was supplied, and is
otherwise left at the caller-supplied value. -/
def wfssInit (docs : List ParamDoc) (sedFileGiven sedDictGiven : Bool)
    (create_continuum_seds : Bool) : Except String Bool :=
  if 1 < docs.length ∧ sedFileGiven then
    Except.error "WARNING: When using an SED file, you must provide only one parameter file."
  else
    match find_param_info docs with
    | Except.error e => Except.error e
    | Except.ok st =>
      if st.yamls_to_disperse.length = 1 then Except.ok true
      else if sedFileGiven ∨ sedDictGiven then Except.ok true
      else Except.ok create_continuum_seds

/-- A small concrete frame used to evaluate the theorems on explicit
inputs. -/
def sampleArr : Arr2 :=
  { rows := 6, cols := 6, px := fun i j => (i : ℚ) * 10 + (j : ℚ) }

/-- Concrete population pattern: galaxies and extended sources populated,
point sources empty. -/
def samplePopulated : SourceClass → Bool :=
  fun c => match c with
  | SourceClass.ptsrc => false
  | _ => true

/-- Concrete per-class dispersed image (constant 2). -/
def sampleClassDisp : SourceClass → ℕ → ℕ → ℚ := fun _ _ _ => 2

/-- Concrete spectrum-derived background image (constant 5). -/
def sampleSpecBack : ℕ → ℕ → ℚ := fun _ _ => 5

/-- Concrete reference background image (constant 7). -/
def sampleImgBack : ℕ → ℕ → ℚ := fun _ _ => 7

/-- A concrete wfss-mode parameter document. -/
def wfssDocA : ParamDoc := { mode := "wfss", grism_source_image := false, basename := "a.yaml" }

/-- A second concrete wfss-mode parameter document (upper-case mode). -/
def wfssDocB : ParamDoc := { mode := "WFSS", grism_source_image := false, basename := "b.yaml" }

/-- A concrete imaging-mode parameter document. -/
def imagingDoc : ParamDoc :=
  { mode := "imaging", grism_source_image := false, basename := "c.yaml" }

/-- A concrete valid document list: one wfss file and one imaging file. -/
def sampleDocsOk : List ParamDoc := [wfssDocA, imagingDoc]

/-- The `find_param_info` result on `sampleDocsOk`. -/
def sampleFPIResult : FPIState :=
  { yamls_to_disperse := [(wfssDocA.basename, wfssDocA),
                          (tmpFileName imagingDoc, rewriteToWfss imagingDoc)]
  , written := [(tmpFileName imagingDoc, rewriteToWfss imagingDoc)]
  , wfss_files_found := 1 }

/- ------------------------------------------------------------------ -/
/- Theorems                                                            -/
/- ------------------------------------------------------------------ -/

/-- C3 (amended): for bounds with every coordinate inside its frame
dimension and with `xstart ≤ xend` and `ystart ≤ yend`,
`crop_to_subarray` returns the slice `data[ystart:yend+1, xstart:xend+1]`
of shape `(yend - ystart + 1, xend - xstart + 1)` whose pixels agree with
the uncropped array; when any coordinate is out of range it raises a
ValueError.  (The ordering hypotheses are the amendment: without them the
Python slice is empty rather than of the stated shape.) -/
theorem crop_to_subarray_spec (data : Arr2) (xstart ystart xend yend : ℤ) :
    (0 ≤ xstart → xstart < (data.cols : ℤ) → 0 ≤ xend → xend < (data.cols : ℤ) →
      0 ≤ ystart → ystart < (data.rows : ℤ) → 0 ≤ yend → yend < (data.rows : ℤ) →
      xstart ≤ xend → ystart ≤ yend →
      ∃ out, crop_to_subarray data xstart ystart xend yend = Except.ok out ∧
        (out.rows : ℤ) = yend - ystart + 1 ∧ (out.cols : ℤ) = xend - xstart + 1 ∧
        ∀ i j, out.px i j = data.px (i + ystart.toNat) (j + xstart.toNat)) ∧
    (¬(0 ≤ xstart ∧ xstart < (data.cols : ℤ) ∧ 0 ≤ xend ∧ xend < (data.cols : ℤ) ∧
       0 ≤ ystart ∧ ystart < (data.rows : ℤ) ∧ 0 ≤ yend ∧ yend < (data.rows : ℤ)) →
      crop_to_subarray data xstart ystart xend yend =
        Except.error "WARNING: subarray bounds are outside the dimensions of the input array.") := by
  constructor
  · intro h1 h2 h3 h4 h5 h6 h7 h8 hxo hyo
    have hv : 0 ≤ xstart ∧ xstart < (data.cols : ℤ) ∧ 0 ≤ xend ∧ xend < (data.cols : ℤ) ∧
        0 ≤ ystart ∧ ystart < (data.rows : ℤ) ∧ 0 ≤ yend ∧ yend < (data.rows : ℤ) :=
      ⟨h1, h2, h3, h4, h5, h6, h7, h8⟩
    refine ⟨⟨(yend + 1 - ystart).toNat, (xend + 1 - xstart).toNat,
        fun i j => data.px (i + ystart.toNat) (j + xstart.toNat)⟩, ?_, ?_, ?_, fun i j => rfl⟩
    · simp only [crop_to_subarray, if_pos hv]
    · show (((yend + 1 - ystart).toNat : ℕ) : ℤ) = yend - ystart + 1
      omega
    · show (((xend + 1 - xstart).toNat : ℕ) : ℤ) = xend - xstart + 1
      omega
  · intro hv
    simp only [crop_to_subarray, if_neg hv]

/-- Witness for C3: cropping the 6×6 sample frame to
`[xstart, ystart, xend, yend] = [1, 2, 3, 4]`. -/
theorem crop_to_subarray_spec_witness :
    ∃ out, crop_to_subarray sampleArr 1 2 3 4 = Except.ok out ∧
      (out.rows : ℤ) = 4 - 2 + 1 ∧ (out.cols : ℤ) = 3 - 1 + 1 ∧
      ∀ i j, out.px i j = sampleArr.px (i + 2) (j + 1) :=
  (crop_to_subarray_spec sampleArr 1 2 3 4).1 (by decide) (by decide) (by decide)
    (by decide) (by decide) (by decide) (by decide) (by decide) (by decide) (by decide)

/-- Counterexample for C3 as stated: with `xstart = 2`, `xend = 0` (all four
coordinates inside `[0, 6)`), the code returns an empty slice with 0
columns, whereas the claim asserts a shape of `xend - xstart + 1 = -1`
columns; no `ValueError` is raised. -/
theorem crop_to_subarray_shape_counterexample :
    (crop_to_subarray sampleArr 2 0 0 0).map Arr2.cols = Except.ok 0 ∧
    (0 : ℤ) - 2 + 1 ≠ ((0 : ℕ) : ℤ) := by
  exact ⟨rfl, by decide⟩

/-- C2: reference-pixel zeroing sets rows 0-3, rows 2044 and beyond,
columns 0-3 and columns 2044 and beyond of the full-frame composite to
exactly 0 and leaves all other pixels unchanged; it is applied
unconditionally — the full-frame branch returns the zeroed frame and the
subarray branch crops the already-zeroed frame — so it happens before any
subarray cropping. -/
theorem refpix_zeroing_spec (disp : Arr2) (xstart ystart xend yend : ℤ) (i j : ℕ) :
    ((i < 4 ∨ 2044 ≤ i ∨ j < 4 ∨ 2044 ≤ j) → (zeroRefPix disp).px i j = 0) ∧
    (¬(i < 4 ∨ 2044 ≤ i ∨ j < 4 ∨ 2044 ≤ j) → (zeroRefPix disp).px i j = disp.px i j) ∧
    postLoopSeed true xstart ystart xend yend disp = Except.ok (zeroRefPix disp) ∧
    postLoopSeed false xstart ystart xend yend disp =
      crop_to_subarray (zeroRefPix disp) xstart ystart xend yend := by
  refine ⟨fun h => ?_, fun h => ?_, rfl, rfl⟩
  · simp only [zeroRefPix, if_pos h]
  · simp only [zeroRefPix, if_neg h]

/-- Witness for C2: border and interior pixels of the zeroed sample frame,
and the full-frame branch on a concrete input. -/
theorem refpix_zeroing_spec_witness :
    (zeroRefPix sampleArr).px 0 5 = 0 ∧ (zeroRefPix sampleArr).px 2044 5 = 0 ∧
    (zeroRefPix sampleArr).px 100 200 = sampleArr.px 100 200 ∧
    postLoopSeed true 0 0 1 1 sampleArr = Except.ok (zeroRefPix sampleArr) :=
  ⟨(refpix_zeroing_spec sampleArr 0 0 1 1 0 5).1 (by decide),
   (refpix_zeroing_spec sampleArr 0 0 1 1 2044 5).1 (by decide),
   (refpix_zeroing_spec sampleArr 0 0 1 1 100 200).2.1 (by decide),
   (refpix_zeroing_spec sampleArr 0 0 1 1 100 200).2.2.1⟩

/-- C4: unit normalization divides every pixel by the selected
per-instrument/per-module mean gain (NIRISS gain for NIRISS; the NIRCam
long-wave module gain keyed by `lw` + module for NIRCam) and sets the seed
metadata units to `ADU/sec`; applying the division a second time changes
any nonzero pixel whenever the gain is neither 0 nor 1, so the operation is
not idempotent. -/
theorem gain_normalization_spec (g : ℚ) (data : Arr2) (info : SeedInfo)
    (modName : String) (nirissGain : ℚ) (nircamLWGain : String → ℚ) (i j : ℕ) :
    (normalizeStage g data info).1.px i j = data.px i j / g ∧
    (normalizeStage g data info).2.units = "ADU/sec" ∧
    selectMeanGain Instrument.niriss modName nirissGain nircamLWGain = nirissGain ∧
    selectMeanGain Instrument.nircam modName nirissGain nircamLWGain =
      nircamLWGain ("lw" ++ pyLower modName) ∧
    (g ≠ 0 → g ≠ 1 → data.px i j ≠ 0 →
      (normalizeByGain g (normalizeByGain g data)).px i j ≠ (normalizeByGain g data).px i j) := by
  refine ⟨rfl, rfl, rfl, rfl, fun hg hg1 hx h => ?_⟩
  simp only [normalizeByGain] at h
  have hxg : data.px i j / g ≠ 0 := div_ne_zero hx hg
  rw [div_eq_iff hg] at h
  nth_rewrite 1 [← mul_one (data.px i j / g)] at h
  exact hg1 (mul_left_cancel₀ hxg h).symm

/-- Witness for C4: gain 2 on the sample frame at pixel (1,1). -/
theorem gain_normalization_spec_witness :
    (normalizeByGain 2 (normalizeByGain 2 sampleArr)).px 1 1 ≠
      (normalizeByGain 2 sampleArr).px 1 1 :=
  (gain_normalization_spec 2 sampleArr { units := "e/s" } "A" 1 (fun _ => 1) 1 1).2.2.2.2
    (by norm_num) (by norm_num) (by norm_num [sampleArr])

/-- C1: when at least one source class has a populated seed, the dispersing
loop passes a background argument to exactly one finalize call — that of the
first populated class in the fixed order point sources, galaxies, extended —
while every later populated class is finalized with no background, and the
composite seed image is the background plus the pixel-wise sum of the
per-class dispersed images, i.e. it contains the background exactly once. -/
theorem background_injected_once (inst : Instrument) (populated : SourceClass → Bool)
    (classDisp : SourceClass → ℕ → ℕ → ℚ) (specBack imgBack : ℕ → ℕ → ℚ)
    (h : classOrder.filter populated ≠ []) :
    (runDisperseLoop inst populated classDisp specBack imgBack).finalizeCalls =
      (match classOrder.filter populated with
        | [] => []
        | c :: rest => (c, true) :: rest.map (fun d => (d, false))) ∧
    ∀ i j, (runDisperseLoop inst populated classDisp specBack imgBack).disp i j =
      chosenBackground inst specBack imgBack i j +
        ((classOrder.filter populated).map (fun c => classDisp c i j)).sum := by
  cases h1 : populated SourceClass.ptsrc <;> cases h2 : populated SourceClass.galaxy <;>
    cases h3 : populated SourceClass.extended <;>
      simp_all [runDisperseLoop, classOrder, stepClass, initLoopState] <;>
      (intro i j; ring)

/-- Witness for C1: a run with galaxies and extended sources populated;
the galaxy finalize gets the background, the extended finalize does not. -/
theorem background_injected_once_witness :
    (runDisperseLoop Instrument.niriss samplePopulated sampleClassDisp sampleSpecBack
        sampleImgBack).finalizeCalls =
      (match classOrder.filter samplePopulated with
        | [] => []
        | c :: rest => (c, true) :: rest.map (fun d => (d, false))) ∧
    ∀ i j, (runDisperseLoop Instrument.niriss samplePopulated sampleClassDisp sampleSpecBack
        sampleImgBack).disp i j =
      chosenBackground Instrument.niriss sampleSpecBack sampleImgBack i j +
        ((classOrder.filter samplePopulated).map (fun c => sampleClassDisp c i j)).sum :=
  background_injected_once Instrument.niriss samplePopulated sampleClassDisp sampleSpecBack
    sampleImgBack (by decide)

/-- C5 (amended): the background-image file (one image extension tagged
EXTNAME `BACKGRND` and UNITS `e/s`) is written exactly once in every run in
which at least one source class is populated — in both the image-based
(NIRISS) branch and the spectrum-based (NIRCam) branch, which writes the
dispersed 1D-spectrum background image — and it is not written in a run
with no populated class. -/
theorem background_file_written_once (inst : Instrument) (populated : SourceClass → Bool)
    (classDisp : SourceClass → ℕ → ℕ → ℚ) (specBack imgBack : ℕ → ℕ → ℚ) :
    (runDisperseLoop inst populated classDisp specBack imgBack).filesWritten =
      (if classOrder.any populated then
        [{ extname := "BACKGRND", units := "e/s",
           img := chosenBackground inst specBack imgBack }]
       else []) := by
  cases h1 : populated SourceClass.ptsrc <;> cases h2 : populated SourceClass.galaxy <;>
    cases h3 : populated SourceClass.extended <;>
      simp_all [runDisperseLoop, classOrder, stepClass, initLoopState]

/-- Counterexample for C5 as stated: a NIRCam run — which uses the
spectrum-based, epoch-derived background branch, never the image-based
one — still writes the background-image file once as soon as any class is
populated, contradicting "never in runs that use the spectrum-based
branch". -/
theorem background_file_spectrum_branch_counterexample :
    (runDisperseLoop Instrument.nircam (fun _ => true) (fun _ _ _ => 0)
        (fun _ _ => 0) (fun _ _ => 0)).filesWritten.length = 1 := rfl

/-- C6 (code-bug evidence): background-rate resolution.  For NIRCam
(without `use_dateobs_for_background`) a non-tier string and any non-string
value raise a ValueError; for NIRISS a non-tier string raises a ValueError
and a real number yields the numeric scaling factor, but — the bug — a value
that is neither a string nor a real number falls through the
`isinstance`/`np.isreal` chain with no `else`: no error is raised and no
scaling factor is assigned (`Except.ok none`), contradicting the claimed
configuration error for both instruments. -/
theorem background_rate_resolution_spec (s : String) (q calcBg gain throughput : ℚ)
    (rate : BkgdRate) :
    nircamBackgroundResolve true rate = Except.ok NircamBackground.dateObsSpectrum ∧
    nircamBackgroundResolve false (BkgdRate.str s) =
      (if isTierName s then Except.ok (NircamBackground.tierSpectrum s)
       else Except.error "ERROR: Unrecognized background rate. Must be one of low, medium, high") ∧
    nircamBackgroundResolve false (BkgdRate.real q) =
      Except.error "ERROR: WFSS background rates must be one of low, medium, high, or use_dateobs_for_background must be True" ∧
    nircamBackgroundResolve false BkgdRate.other =
      Except.error "ERROR: WFSS background rates must be one of low, medium, high, or use_dateobs_for_background must be True" ∧
    nirissBackgroundResolve (BkgdRate.str s) calcBg gain throughput =
      (if isTierName s then Except.ok (some (calcBg * throughput * gain))
       else Except.error "ERROR: Unrecognized background rate. String value must be one of low, medium, high") ∧
    nirissBackgroundResolve (BkgdRate.real q) calcBg gain throughput =
      Except.ok (some (nirissNumericScaling q gain throughput)) ∧
    nirissBackgroundResolve BkgdRate.other calcBg gain throughput = Except.ok none :=
  ⟨rfl, rfl, rfl, rfl, rfl, rfl, rfl⟩

/-- A wfss-mode document is not an imaging/pom-mode document. -/
theorem wfss_not_imgpom {d : ParamDoc} (h : isWfssDoc d = true) : isImgPomDoc d = false := by
  simp only [isWfssDoc, beq_iff_eq] at h
  simp [isImgPomDoc, h]

/-- Once two wfss documents have been seen in total, `find_param_info`
raises the only-one-wfss ValueError. -/
theorem fpi_aux_two_wfss (docs : List ParamDoc) :
    ∀ st : FPIState, st.wfss_files_found ≤ 1 →
    2 ≤ st.wfss_files_found + docs.countP isWfssDoc →
    find_param_info_aux docs st =
      Except.error "WARNING: only one of the parameter files can be WFSS mode." := by
  induction docs with
  | nil =>
    intro st h1 h2
    simp only [List.countP_nil] at h2
    omega
  | cons d rest ih =>
    intro st h1 h2
    rw [List.countP_cons] at h2
    by_cases hw : isWfssDoc d = true
    · simp only [find_param_info_aux, hw, if_true]
      by_cases h2w : st.wfss_files_found + 1 = 2
      · simp [h2w]
      · have h0 : st.wfss_files_found = 0 := by omega
        simp only [h2w, if_false]
        apply ih
        · simp
          omega
        · simp only [hw, if_true] at h2
          simp
          omega
    · simp only [find_param_info_aux, hw, if_false]
      simp only [hw, if_false, add_zero] at h2
      by_cases hi : isImgPomDoc d = true
      · simp only [hi, if_true]
        exact ih _ (by simpa using h1) (by simpa using h2)
      · simp only [hi, if_false]
        exact ih _ h1 h2

/-- With no wfss document seen and none remaining, `find_param_info`
raises the no-wfss ValueError. -/
theorem fpi_aux_no_wfss (docs : List ParamDoc) :
    ∀ st : FPIState, st.wfss_files_found = 0 → docs.countP isWfssDoc = 0 →
    find_param_info_aux docs st =
      Except.error "WARNING: No WFSS mode parameter files found. One of the parameter files must be wfss mode in order to define grism and crossing filter." := by
  induction docs with
  | nil =>
    intro st h1 _
    simp [find_param_info_aux, h1]
  | cons d rest ih =>
    intro st h1 h2
    rw [List.countP_cons] at h2
    by_cases hw : isWfssDoc d = true
    · simp [hw] at h2
    · simp only [find_param_info_aux, hw, if_false]
      simp only [hw, if_false, add_zero] at h2
      by_cases hi : isImgPomDoc d = true
      · simp only [hi, if_true]
        exact ih _ h1 h2
      · simp only [hi, if_false]
        exact ih _ h1 h2

/-- On success, the files persisted by `find_param_info` are exactly the
rewritten copies of the imaging/pom documents, in order. -/
theorem fpi_aux_written (docs : List ParamDoc) :
    ∀ st st' : FPIState, find_param_info_aux docs st = Except.ok st' →
    st'.written = st.written ++
      (docs.filter isImgPomDoc).map (fun d => (tmpFileName d, rewriteToWfss d)) := by
  induction docs with
  | nil =>
    intro st st' h
    by_cases h0 : st.wfss_files_found = 0
    · simp [find_param_info_aux, h0] at h
    · simp only [find_param_info_aux, h0, if_false, Except.ok.injEq] at h
      simp [← h]
  | cons d rest ih =>
    intro st st' h
    by_cases hw : isWfssDoc d = true
    · simp only [find_param_info_aux, hw, if_true] at h
      by_cases h2w : st.wfss_files_found + 1 = 2
      · simp [h2w] at h
      · simp only [h2w, if_false] at h
        have := ih _ _ h
        simp only [List.filter_cons, wfss_not_imgpom hw] at *
        simpa using this
    · simp only [find_param_info_aux, hw, if_false] at h
      by_cases hi : isImgPomDoc d = true
      · simp only [hi, if_true] at h
        have := ih _ _ h
        simp only [this, List.filter_cons, hi, if_true]
        simp
      · simp only [hi, if_false] at h
        have := ih _ _ h
        simp [this, List.filter_cons, hi]

/-- C7: exactly one input document must declare wfss mode — a second
wfss-mode document raises a ValueError, and zero wfss-mode documents raise
a ValueError; every imaging/pom-mode document is rewritten with mode forced
to `wfss` and `grism_source_image` set to True, and the rewritten copy is
persisted under the new name `tmp_update_to_wfss_mode_` + original
basename, which differs from the original name, leaving the original file
in place. -/
theorem find_param_info_spec (docs : List ParamDoc) :
    (2 ≤ docs.countP isWfssDoc →
      find_param_info docs =
        Except.error "WARNING: only one of the parameter files can be WFSS mode.") ∧
    (docs.countP isWfssDoc = 0 →
      find_param_info docs =
        Except.error "WARNING: No WFSS mode parameter files found. One of the parameter files must be wfss mode in order to define grism and crossing filter.") ∧
    (∀ st, find_param_info docs = Except.ok st →
      st.written = (docs.filter isImgPomDoc).map (fun d => (tmpFileName d, rewriteToWfss d))) ∧
    (∀ d : ParamDoc, (rewriteToWfss d).mode = "wfss" ∧
      (rewriteToWfss d).grism_source_image = true ∧ tmpFileName d ≠ d.basename) := by
  refine ⟨fun h => ?_, fun h => ?_, fun st h => ?_, fun d => ⟨rfl, rfl, fun h => ?_⟩⟩
  · exact fpi_aux_two_wfss docs fpiInit (by simp [fpiInit]) (by simp [fpiInit]; omega)
  · exact fpi_aux_no_wfss docs fpiInit rfl h
  · simpa [fpiInit] using fpi_aux_written docs fpiInit st h
  · have hl := congrArg String.length h
    rw [tmpFileName, String.length_append] at hl
    simp at hl
    exact absurd hl (by decide)

/-- Witness for C7: two wfss documents raise, an imaging-only list raises,
and a valid wfss + imaging pair persists exactly the rewritten imaging
document. -/
theorem find_param_info_spec_witness :
    find_param_info [wfssDocA, wfssDocB] =
      Except.error "WARNING: only one of the parameter files can be WFSS mode." ∧
    find_param_info [imagingDoc] =
      Except.error "WARNING: No WFSS mode parameter files found. One of the parameter files must be wfss mode in order to define grism and crossing filter." ∧
    sampleFPIResult.written =
      (sampleDocsOk.filter isImgPomDoc).map (fun d => (tmpFileName d, rewriteToWfss d)) :=
  ⟨(find_param_info_spec [wfssDocA, wfssDocB]).1 (by decide),
   (find_param_info_spec [imagingDoc]).2.1 (by decide),
   (find_param_info_spec sampleDocsOk).2.2.1 sampleFPIResult rfl⟩

/-- Once the wfss document has been inserted at the front, later iterations
only append, so the head of the output list is preserved. -/
theorem fpi_aux_head_pres (docs : List ParamDoc) :
    ∀ st st' : FPIState, st.wfss_files_found = 1 → st.yamls_to_disperse ≠ [] →
    find_param_info_aux docs st = Except.ok st' →
    st'.yamls_to_disperse.head? = st.yamls_to_disperse.head? := by
  induction docs with
  | nil =>
    intro st st' h1 _ h
    simp [find_param_info_aux, h1] at h
    rw [← h]
  | cons d rest ih =>
    intro st st' h1 hne h
    by_cases hw : isWfssDoc d = true
    · simp [find_param_info_aux, hw, h1] at h
    · simp only [find_param_info_aux] at h
      rw [if_neg hw] at h
      by_cases hi : isImgPomDoc d = true
      · rw [if_pos hi] at h
        have hne2 : st.yamls_to_disperse ++ [(tmpFileName d, rewriteToWfss d)] ≠ [] := by
          simp
        have hh := ih { st with
            yamls_to_disperse := st.yamls_to_disperse ++ [(tmpFileName d, rewriteToWfss d)]
          , written := st.written ++ [(tmpFileName d, rewriteToWfss d)] } st' h1 hne2 h
        rw [hh]
        cases hys : st.yamls_to_disperse with
        | nil => exact absurd hys hne
        | cons y ys => simp [hys]
      · rw [if_neg hi] at h
        exact ih _ _ h1 hne h

/-- On success starting from a state with no wfss file yet seen, the head
of the list of yaml files to disperse is the first wfss-mode document,
under its original name. -/
theorem fpi_aux_head (docs : List ParamDoc) :
    ∀ st st' : FPIState, st.wfss_files_found = 0 →
    find_param_info_aux docs st = Except.ok st' →
    st'.yamls_to_disperse.head? =
      (docs.find? isWfssDoc).map (fun d => (d.basename, d)) := by
  induction docs with
  | nil =>
    intro st st' h1 h
    simp [find_param_info_aux, h1] at h
  | cons d rest ih =>
    intro st st' h1 h
    by_cases hw : isWfssDoc d = true
    · simp only [find_param_info_aux] at h
      rw [if_pos hw] at h
      have hnot2 : ¬(st.wfss_files_found + 1 = 2) := by omega
      rw [if_neg hnot2] at h
      have hh := fpi_aux_head_pres rest _ st' (by simp [h1]) (by simp) h
      rw [List.find?_cons_of_pos _ hw]
      simpa using hh
    · simp only [find_param_info_aux] at h
      rw [if_neg hw] at h
      rw [List.find?_cons_of_neg _ hw]
      by_cases hi : isImgPomDoc d = true
      · rw [if_pos hi] at h
        -- the wfss file has not been seen yet: an append happened, but the
        -- eventual insert at the front still determines the head
        exact ih { st with
            yamls_to_disperse := st.yamls_to_disperse ++ [(tmpFileName d, rewriteToWfss d)]
          , written := st.written ++ [(tmpFileName d, rewriteToWfss d)] } st' h1 h
      · rw [if_neg hi] at h
        exact ih _ _ h1 h

/-- C10: `find_param_info` always returns the wfss-mode parameter file as
the first element of the list of yaml files to disperse, so the
seed-generation loop of `create` — which breaks after the first file when
`create_continuum_seds` is set — processes exactly the wfss-mode
configuration. -/
theorem wfss_yaml_first_spec (docs : List ParamDoc) (st : FPIState) (d : ParamDoc)
    (hok : find_param_info docs = Except.ok st) (hfind : docs.find? isWfssDoc = some d) :
    st.yamls_to_disperse.head? = some (d.basename, d) ∧
    seedGenFiles true st.yamls_to_disperse = [(d.basename, d)] := by
  have hh := fpi_aux_head docs fpiInit st rfl hok
  rw [hfind] at hh
  simp only [Option.map_some'] at hh
  refine ⟨hh, ?_⟩
  cases hys : st.yamls_to_disperse with
  | nil => rw [hys] at hh; simp at hh
  | cons y ys =>
    rw [hys] at hh
    simp only [List.head?_cons, Option.some.injEq] at hh
    simp [seedGenFiles, hh]

/-- Witness for C10: the valid wfss + imaging pair puts the wfss file
first, and a continuum-SED run processes only that file. -/
theorem wfss_yaml_first_spec_witness :
    sampleFPIResult.yamls_to_disperse.head? = some (wfssDocA.basename, wfssDocA) ∧
    seedGenFiles true sampleFPIResult.yamls_to_disperse = [(wfssDocA.basename, wfssDocA)] :=
  wfss_yaml_first_spec sampleDocsOk sampleFPIResult wfssDocA rfl rfl

/-- On success, the length of the output list of `find_param_info` is the
number of wfss/imaging/pom documents among the inputs. -/
theorem fpi_aux_length (docs : List ParamDoc) :
    ∀ st st' : FPIState, find_param_info_aux docs st = Except.ok st' →
    st'.yamls_to_disperse.length = st.yamls_to_disperse.length +
      docs.countP (fun d => isWfssDoc d || isImgPomDoc d) := by
  induction docs with
  | nil =>
    intro st st' h
    by_cases h0 : st.wfss_files_found = 0
    · simp [find_param_info_aux, h0] at h
    · simp [find_param_info_aux, h0] at h
      simp [← h]
  | cons d rest ih =>
    intro st st' h
    rw [List.countP_cons]
    by_cases hw : isWfssDoc d = true
    · simp only [find_param_info_aux] at h
      rw [if_pos hw] at h
      by_cases h2 : st.wfss_files_found + 1 = 2
      · rw [if_pos h2] at h
        exact absurd h (by simp)
      · rw [if_neg h2] at h
        have hlen := ih _ _ h
        simp only [List.length_cons] at hlen
        simp [hlen, hw]
        omega
    · simp only [find_param_info_aux] at h
      rw [if_neg hw] at h
      by_cases hi : isImgPomDoc d = true
      · rw [if_pos hi] at h
        have hlen := ih _ _ h
        simp only [List.length_append, List.length_cons, List.length_nil] at hlen
        simp [hlen, hw, hi]
        omega
      · rw [if_neg hi] at h
        have hlen := ih _ _ h
        simp [hlen, hw, hi]

/-- C9 (amended): `WFSSSim.__init__` forces `create_continuum_seds` to True
whenever the (rewritten) parameter-file list has exactly one file — in
particular for a single supplied wfss file — and whenever an SED dict is
supplied with multiple parameter files; supplying an SED *file* with more
than one parameter file instead raises the mutual-exclusion ValueError of
`param_checks` before the continuum logic runs; only with multiple
wfss/imaging/pom parameter files and no input spectra is the
caller-supplied value preserved. -/
theorem continuum_seds_forcing_spec :
    (∀ (d : ParamDoc) (sf sd ccs : Bool), isWfssDoc d = true →
      wfssInit [d] sf sd ccs = Except.ok true) ∧
    (∀ (docs : List ParamDoc) (sd ccs : Bool), 1 < docs.length →
      wfssInit docs true sd ccs =
        Except.error "WARNING: When using an SED file, you must provide only one parameter file.") ∧
    (∀ (docs : List ParamDoc) (st : FPIState) (ccs : Bool),
      find_param_info docs = Except.ok st →
      wfssInit docs false true ccs = Except.ok true) ∧
    (∀ (docs : List ParamDoc) (st : FPIState) (ccs : Bool),
      find_param_info docs = Except.ok st → 2 ≤ st.yamls_to_disperse.length →
      wfssInit docs false false ccs = Except.ok ccs) ∧
    (∀ (docs : List ParamDoc) (st : FPIState),
      find_param_info docs = Except.ok st →
      (∀ d ∈ docs, isWfssDoc d = true ∨ isImgPomDoc d = true) →
      st.yamls_to_disperse.length = docs.length) := by
  refine ⟨fun d sf sd ccs hw => ?_, fun docs sd ccs hl => ?_,
          fun docs st ccs hok => ?_, fun docs st ccs hok hlen => ?_,
          fun docs st hok hall => ?_⟩
  · have hfp : find_param_info [d] =
        Except.ok { yamls_to_disperse := [(d.basename, d)], written := []
                  , wfss_files_found := 1 } := by
      simp [find_param_info, find_param_info_aux, fpiInit, hw]
    simp [wfssInit, hfp]
  · simp only [wfssInit]
    rw [if_pos (show 1 < docs.length ∧ True from ⟨hl, trivial⟩)]
  · by_cases hl : st.yamls_to_disperse.length = 1 <;> simp [wfssInit, hok, hl]
  · have hne : ¬(st.yamls_to_disperse.length = 1) := by omega
    simp [wfssInit, hok, hne]
  · have hlen := fpi_aux_length docs fpiInit st hok
    simp only [fpiInit, List.length_nil, Nat.zero_add] at hlen
    rw [hlen, List.countP_eq_length]
    intro d hd
    rcases hall d hd with h | h <;> simp [h]

/-- Counterexample for C9 as stated: supplying an SED file together with
two parameter files does not force `create_continuum_seds` to True — the
constructor raises the mutual-exclusion ValueError instead. -/
theorem continuum_seds_sedfile_counterexample :
    wfssInit sampleDocsOk true false false =
      Except.error "WARNING: When using an SED file, you must provide only one parameter file." :=
  rfl

/-- Witness for C9: a single wfss file forces True; an SED file with two
files raises; an SED dict with two files forces True; two files with no
spectra preserve the caller value False. -/
theorem continuum_seds_forcing_spec_witness :
    wfssInit [wfssDocA] false false false = Except.ok true ∧
    wfssInit sampleDocsOk true true true =
      Except.error "WARNING: When using an SED file, you must provide only one parameter file." ∧
    wfssInit sampleDocsOk false true false = Except.ok true ∧
    wfssInit sampleDocsOk false false false = Except.ok false :=
  ⟨continuum_seds_forcing_spec.1 wfssDocA false false false rfl,
   continuum_seds_forcing_spec.2.1 sampleDocsOk true true (by decide),
   continuum_seds_forcing_spec.2.2.1 sampleDocsOk sampleFPIResult false rfl,
   continuum_seds_forcing_spec.2.2.2.1 sampleDocsOk sampleFPIResult false rfl (by decide)⟩

/-- The mean scales with a common factor on every element. -/
theorem lmean_map_mul (c : ℚ) (l : List ℚ) :
    lmean (l.map (fun x => x * c)) = lmean l * c := by
  simp only [lmean, List.length_map]
  rw [List.sum_map_mul_right]
  simp only [List.map_id']
  rw [mul_div_right_comm]

/-- One clipping pass never grows the list. -/
theorem clipPass_length_le (l : List ℚ) : (clipPass l).length ≤ l.length :=
  List.Sublist.length_le (List.filter_sublist l)

/-- A clipping pass that preserves the length removes nothing. -/
theorem clipPass_eq_self_of_length {l : List ℚ} (h : (clipPass l).length = l.length) :
    clipPass l = l :=
  List.Sublist.eq_of_length (List.filter_sublist l) h

/-- With fuel at least the list length, the fuelled loop reaches a fixpoint
of `clipPass` — i.e. the fuel `l.length` used by `sigmaclip` is enough to
emulate the unbounded while loop of scipy. -/
theorem sigmaclipAux_fixpoint : ∀ (n : ℕ) (l : List ℚ), l.length ≤ n →
    clipPass (sigmaclipAux n l) = sigmaclipAux n l := by
  intro n
  induction n with
  | zero =>
    intro l hl
    have : l = [] := List.length_eq_zero.mp (Nat.le_zero.mp hl)
    subst this
    rfl
  | succ n ih =>
    intro l hl
    simp only [sigmaclipAux]
    by_cases h : (clipPass l).length = l.length
    · rw [if_pos h]
      have he := clipPass_eq_self_of_length h
      rw [he, he]
    · rw [if_neg h]
      exact ih (clipPass l) (by have := clipPass_length_le l; omega)

/-- The function `sigmaclip` returns a fixpoint of the clipping pass. -/
theorem sigmaclip_fixpoint (l : List ℚ) : clipPass (sigmaclip l) = sigmaclip l :=
  sigmaclipAux_fixpoint l.length l le_rfl

/-- A clipping pass commutes with scaling by a nonzero factor: the clip
bounds `mean ± 3·std` scale along with the data, so the same elements
survive. -/
theorem clipPass_map_mul (c : ℚ) (hc : c ≠ 0) (l : List ℚ) :
    clipPass (l.map (fun x => x * c)) = (clipPass l).map (fun x => x * c) := by
  have hc2 : (0 : ℚ) < c ^ 2 := lt_of_le_of_ne (sq_nonneg c) (Ne.symm (pow_ne_zero 2 hc))
  simp only [clipPass]
  rw [lmean_map_mul]
  have hsq : ((l.map (fun x => x * c)).map (fun x => (x - lmean l * c) ^ 2)) =
      ((l.map (fun x => (x - lmean l) ^ 2)).map (fun x => x * c ^ 2)) := by
    rw [List.map_map, List.map_map]
    apply List.map_congr_left
    intro x _
    simp only [Function.comp]
    ring
  rw [hsq, lmean_map_mul, List.filter_map]
  congr 1
  apply List.filter_congr
  intro x _
  simp only [Function.comp]
  apply decide_eq_decide.mpr
  have h1 : (x * c - lmean l * c) ^ 2 = (x - lmean l) ^ 2 * c ^ 2 := by ring
  have h2 : 9 * (lmean (l.map fun x => (x - lmean l) ^ 2) * c ^ 2) =
      9 * lmean (l.map fun x => (x - lmean l) ^ 2) * c ^ 2 := by ring
  rw [h1, h2]
  exact mul_le_mul_right hc2

/-- The fuelled clipping loop commutes with scaling by a nonzero factor. -/
theorem sigmaclipAux_map_mul (c : ℚ) (hc : c ≠ 0) :
    ∀ (n : ℕ) (l : List ℚ),
    sigmaclipAux n (l.map (fun x => x * c)) = (sigmaclipAux n l).map (fun x => x * c) := by
  intro n
  induction n with
  | zero => intro l; rfl
  | succ n ih =>
    intro l
    simp only [sigmaclipAux]
    rw [clipPass_map_mul c hc, List.length_map, List.length_map]
    by_cases h : (clipPass l).length = l.length
    · rw [if_pos h, if_pos h]
    · rw [if_neg h, if_neg h, ih]

/-- The function `sigmaclip` commutes with scaling by a nonzero factor. -/
theorem sigmaclip_map_mul (c : ℚ) (hc : c ≠ 0) (l : List ℚ) :
    sigmaclip (l.map (fun x => x * c)) = (sigmaclip l).map (fun x => x * c) := by
  simp only [sigmaclip, List.length_map]
  exact sigmaclipAux_map_mul c hc l.length l

/-- C8: in the image-based branch the reference background image is divided
by its sigma-clipped mean (iterative 3-sigma rejection on both sides, then
the mean of the survivors) and multiplied by the scaling factor
`level * gain * throughput`, so the sigma-clipped mean of the resulting
background image equals that factor — the requested level expressed in
electrons/sec after gain and the grism-transmission-loss correction. -/
theorem background_rescaled_mean_spec (img : List ℚ) (level gain throughput : ℚ)
    (hm : lmean (sigmaclip img) ≠ 0) (hs : nirissNumericScaling level gain throughput ≠ 0) :
    lmean (sigmaclip (scaleBackgroundImage img (nirissNumericScaling level gain throughput))) =
      nirissNumericScaling level gain throughput := by
  set s := nirissNumericScaling level gain throughput with hs_def
  set m := lmean (sigmaclip img) with hm_def
  have hmap : scaleBackgroundImage img s = img.map (fun x => x * (s / m)) := by
    simp only [scaleBackgroundImage, ← hm_def]
    apply List.map_congr_left
    intro x _
    ring
  rw [hmap, sigmaclip_map_mul _ (div_ne_zero hs hm), lmean_map_mul, ← hm_def]
  rw [mul_comm, div_mul_cancel₀ s hm]

/-- Witness for C8: the constant background image `[5, 5]` (every pixel at
the clip boundary, kept by the inclusive bounds, so its sigma-clipped mean
is 5) with requested level 2, gain 1, throughput 1: after rescaling the
sigma-clipped mean equals the scaling factor 2. -/
theorem background_rescaled_mean_spec_witness :
    lmean (sigmaclip (scaleBackgroundImage [5, 5] (nirissNumericScaling 2 1 1))) =
      nirissNumericScaling 2 1 1 :=
  background_rescaled_mean_spec [5, 5] 2 1 1
    (by norm_num [sigmaclip, sigmaclipAux, clipPass, lmean, List.filter])
    (by norm_num [nirissNumericScaling])

end Mirage
